import Mathlib

/-!
Verification of the PTM-Torrent ModelhubTorrent ingestion pipeline
(`src/ModelhubTorrent/scripts/1a_init.py`) against its design specification.

The script is embedded shallowly:
* JSON documents are the inductive `Json`; `pyLoads` / `pyDumps` model the
  behaviour of Python's `json.loads` / `json.dumps` (default settings) on the
  subset of JSON exercised by the script: null, booleans, integers, strings,
  arrays, objects.  Floating-point numbers, `\uXXXX` escapes, non-ASCII
  escaping, duplicate object keys and leading-zero validation are outside the
  modelled scope.
* Python `str` operations are char-for-codepoint faithful: `pyStartsWith`
  models `str.startswith` and `pyDrop` models slicing `s[n:]`.
* `pathlib`'s `/` operator is `pyJoin` (a right operand with a leading `/` is
  absolute and replaces the left operand); `relative_to` is `pyRelativeTo`.
* Exceptions are the explicit error type `PyErr`.  A non-string value in a
  field the script uses as a string fails the package in both the code and
  the model; the exact Python exception class varies by use site and is
  collapsed to `PyErr.typeError` here.
* External collaborators (git clone, wget download, the network fetch of the
  index) are oracles passed in as parameters; the invocations the script
  performs are recorded as an `ExtAction` trace; file writes are recorded as
  `(path, contents)` pairs.
-/

/-- A JSON value, as produced by Python's `json.loads` on the modelled subset
(numbers restricted to integers; see module comment for scope). -/
inductive Json where
  | null : Json
  | bool : Bool → Json
  | num : Int → Json
  | str : String → Json
  | arr : List Json → Json
  | obj : List (String × Json) → Json

/-- Python truthiness of a JSON-derived value (`None`, `False`, `0`, `""`,
`[]`, `{}` are falsy). -/
def Json.truthy : Json → Bool
  | .null => false
  | .bool b => b
  | .num n => n != 0
  | .str s => s != ""
  | .arr xs => !xs.isEmpty
  | .obj flds => !flds.isEmpty

/-- Lookup of a key in a JSON object's field list (`dict` lookup). -/
def jsonLookup (flds : List (String × Json)) (k : String) : Option Json :=
  (flds.find? (fun p => p.1 = k)).map (·.2)

/-- Python string `startswith`, codepoint-faithful. -/
def pyStartsWith (s p : String) : Bool := p.data.isPrefixOf s.data

/-- Python string slicing `s[n:]`, codepoint-faithful. -/
def pyDrop (s : String) (n : Nat) : String := String.mk (s.data.drop n)

/-- `pathlib`'s `/` operator on POSIX paths: a right operand with a leading
separator is absolute and replaces the left operand. -/
def pyJoin (root p : String) : String :=
  if pyStartsWith p "/" then p else root ++ "/" ++ p

/-- Skip JSON whitespace. -/
def skipWs : List Char → List Char
  | [] => []
  | c :: cs => if c = ' ' ∨ c = '\t' ∨ c = '\n' ∨ c = '\r' then skipWs cs else c :: cs

/-- Parse the body of a JSON string after the opening quote; returns the
content characters and the input remaining after the closing quote. -/
def parseStringBody : List Char → Option (List Char × List Char)
  | [] => none
  | '"' :: rest => some ([], rest)
  | '\\' :: e :: rest =>
    match (if e = '"' then some '"'
           else if e = '\\' then some '\\'
           else if e = '/' then some '/'
           else if e = 'n' then some '\n'
           else if e = 't' then some '\t'
           else if e = 'r' then some '\r'
           else if e = 'b' then some (Char.ofNat 8)
           else if e = 'f' then some (Char.ofNat 12)
           else none) with
    | none => none
    | some c =>
      match parseStringBody rest with
      | none => none
      | some (cs, r) => some (c :: cs, r)
  | c :: rest =>
    if c.toNat < 32 then none
    else
      match parseStringBody rest with
      | none => none
      | some (cs, r) => some (c :: cs, r)

/-- Decimal digits to a natural number. -/
def digitsToNat (ds : List Char) : Nat :=
  ds.foldl (fun a c => a * 10 + (c.toNat - 48)) 0

/-- Parse a JSON integer (fractions and exponents are outside the modelled
scope). -/
def parseNumber (cs : List Char) : Option (Int × List Char) :=
  match cs with
  | '-' :: rest =>
    let (ds, r) := rest.span (·.isDigit)
    if ds.isEmpty then none else some (-(digitsToNat ds : Int), r)
  | _ =>
    let (ds, r) := cs.span (·.isDigit)
    if ds.isEmpty then none else some ((digitsToNat ds : Int), r)

mutual

/-- Fuel-bounded recursive-descent parse of one JSON value. -/
def parseVal : Nat → List Char → Option (Json × List Char)
  | 0, _ => none
  | Nat.succ fuel, cs =>
    match skipWs cs with
    | [] => none
    | c :: rest =>
      if c = '"' then
        match parseStringBody rest with
        | some (content, r) => some (.str (String.mk content), r)
        | none => none
      else if c = '[' then
        match skipWs rest with
        | ']' :: r => some (.arr [], r)
        | _ => parseElems fuel rest []
      else if c = '\x7b' then
        match skipWs rest with
        | '\x7d' :: r => some (.obj [], r)
        | _ => parseMembers fuel rest []
      else if c = 't' then
        if rest.take 3 = ['r', 'u', 'e'] then some (.bool true, rest.drop 3) else none
      else if c = 'f' then
        if rest.take 4 = ['a', 'l', 's', 'e'] then some (.bool false, rest.drop 4) else none
      else if c = 'n' then
        if rest.take 3 = ['u', 'l', 'l'] then some (.null, rest.drop 3) else none
      else if c = '-' ∨ c.isDigit then
        match parseNumber (c :: rest) with
        | some (n, r) => some (.num n, r)
        | none => none
      else none

/-- Parse the elements of a non-empty JSON array (after the opening bracket). -/
def parseElems : Nat → List Char → List Json → Option (Json × List Char)
  | 0, _, _ => none
  | Nat.succ fuel, cs, acc =>
    match parseVal fuel cs with
    | none => none
    | some (v, r) =>
      match skipWs r with
      | ',' :: r2 => parseElems fuel r2 (acc ++ [v])
      | ']' :: r2 => some (.arr (acc ++ [v]), r2)
      | _ => none

/-- Parse the members of a non-empty JSON object (after the opening brace). -/
def parseMembers : Nat → List Char → List (String × Json) → Option (Json × List Char)
  | 0, _, _ => none
  | Nat.succ fuel, cs, acc =>
    match skipWs cs with
    | '"' :: r =>
      match parseStringBody r with
      | none => none
      | some (k, r2) =>
        match skipWs r2 with
        | ':' :: r3 =>
          match parseVal fuel r3 with
          | none => none
          | some (v, r4) =>
            match skipWs r4 with
            | ',' :: r5 => parseMembers fuel r5 (acc ++ [(String.mk k, v)])
            | '\x7d' :: r5 => some (.obj (acc ++ [(String.mk k, v)]), r5)
            | _ => none
        | _ => none
    | _ => none

end

/-- Python `json.loads` on the modelled subset: parse one value and require
the rest of the input to be whitespace. `none` models `JSONDecodeError`. -/
def pyLoads (s : String) : Option Json :=
  match parseVal (s.length + 2) s.data with
  | some (j, rest) => if (skipWs rest).isEmpty then some j else none
  | none => none

/-- `json.dumps` escaping of one character (default settings; other control
characters and non-ASCII `\uXXXX` escaping are outside the modelled scope). -/
def escapeChar (c : Char) : List Char :=
  if c = '"' then ['\\', '"']
  else if c = '\\' then ['\\', '\\']
  else if c = '\n' then ['\\', 'n']
  else if c = '\t' then ['\\', 't']
  else if c = '\r' then ['\\', 'r']
  else if c.toNat = 8 then ['\\', 'b']
  else if c.toNat = 12 then ['\\', 'f']
  else [c]

/-- `json.dumps` of a string value. -/
def pyDumpsStr (s : String) : String :=
  String.mk ('"' :: (s.data.map escapeChar).flatten ++ ['"'])

mutual

/-- Python `json.dumps` with default settings: item separator `", "`, key
separator `": "`. -/
def pyDumps : Json → String
  | .null => "null"
  | .bool true => "true"
  | .bool false => "false"
  | .num n => toString n
  | .str s => pyDumpsStr s
  | .arr xs => "[" ++ pyDumpsList xs ++ "]"
  | .obj flds => "\x7b" ++ pyDumpsMembers flds ++ "\x7d"

/-- `json.dumps` of array elements, `", "`-separated. -/
def pyDumpsList : List Json → String
  | [] => ""
  | [x] => pyDumps x
  | x :: y :: xs => pyDumps x ++ ", " ++ pyDumpsList (y :: xs)

/-- `json.dumps` of object members, `", "`-separated with `": "` after keys. -/
def pyDumpsMembers : List (String × Json) → String
  | [] => ""
  | [(k, v)] => pyDumpsStr k ++ ": " ++ pyDumps v
  | (k, v) :: m :: xs => pyDumpsStr k ++ ": " ++ pyDumps v ++ ", " ++ pyDumpsMembers (m :: xs)

end

/-- An invocation of an external collaborator performed by the script:
a `git clone` subprocess or a `wget` download subprocess. -/
inductive ExtAction where
  | cloneCall : String → String → ExtAction
  | downloadCall : String → String → ExtAction
deriving DecidableEq, Repr

/-- The Python exceptions the script can raise, made explicit.  A non-string
value in a string-typed field is collapsed to `typeError` (see module
comment). -/
inductive PyErr where
  | keyError : String → PyErr
  | typeError : PyErr
  | attributeError : PyErr
  | fileNotFound : String → PyErr
  | jsonDecodeError : PyErr
  | calledProcessError : List String → PyErr
  | networkError : PyErr
  | valueError : PyErr
deriving DecidableEq, Repr

/-- Python `meta[k]` on a JSON-derived value, used where the script consumes
the result as a string: `KeyError` if the key is absent, `typeError` if the
container is not a dict or the value is not a string. -/
def jsonGetStr (j : Json) (k : String) : Except PyErr String :=
  match j with
  | .obj flds =>
    match jsonLookup flds k with
    | some (.str s) => .ok s
    | some _ => .error .typeError
    | none => .error (.keyError k)
  | _ => .error .typeError

/-- `environ.get(k)` truthiness: unset (`none`) and the empty string are
falsy, any other value is truthy. -/
def envTruthy (environ : String → Option String) (k : String) : Bool :=
  match environ k with
  | none => false
  | some s => s != ""

/-- The clone step of `clone_repo`: unless `MHTORRENT_SKIP_CLONE` is truthy,
run `git clone --depth=1 <github_repo> <name>` (recorded as a `cloneCall`;
`subprocess.run(..., check=True)` raises `CalledProcessError` on failure,
decided by the `cloneOk` oracle). -/
def cloneStep (skipClone : Bool) (cloneOk : String → String → Bool)
    (github_repo name : String) : List ExtAction × Option PyErr :=
  if skipClone then ([], none)
  else if cloneOk github_repo name then ([.cloneCall github_repo name], none)
  else ([.cloneCall github_repo name],
        some (.calledProcessError ["git", "clone", "--depth=1", github_repo, name]))

/-- The `dest_file_path` normalization of `clone_repo`:
`if dest.startswith("/"): dest = dest[1:]` — strip one leading separator. -/
def destNormalize (dest0 : String) : String :=
  if pyStartsWith dest0 "/" then pyDrop dest0 1 else dest0

/-- The loop body of `clone_repo` over `data["external_contrib_files"]`:
per entry, read `src_url`; skip the entry if it does not start with `"http"`;
read `dest_file_path`, strip one leading `/`, join to the repository root;
skip if `MHTORRENT_SKIP_DOWNLOAD` is truthy, else invoke `download_file`
(`wget`, recorded as `downloadCall`; failure raises and aborts the package). -/
def resolveAssets (skipDownload : Bool) (downloadOk : String → String → Bool)
    (repo_root : String) : List Json → List ExtAction × Option PyErr
  | [] => ([], none)
  | e :: rest =>
    match jsonGetStr e "src_url" with
    | .error err => ([], some err)
    | .ok src =>
      if !pyStartsWith src "http" then resolveAssets skipDownload downloadOk repo_root rest
      else
        match jsonGetStr e "dest_file_path" with
        | .error err => ([], some err)
        | .ok dest0 =>
          let dest := destNormalize dest0
          let realpath := pyJoin repo_root dest
          if skipDownload then resolveAssets skipDownload downloadOk repo_root rest
          else if downloadOk src realpath then
            let r := resolveAssets skipDownload downloadOk repo_root rest
            (.downloadCall src realpath :: r.1, r.2)
          else ([.downloadCall src realpath],
                some (.calledProcessError ["wget", src, "-O", realpath]))

/-- The `if data.get("external_contrib_files"):` guard of `clone_repo`:
on a non-dict `data`, `.get` raises `AttributeError`; a missing key or a
falsy value skips the loop; a truthy non-list value fails at iteration /
indexing (collapsed to `typeError`). -/
def resolveContrib (skipDownload : Bool) (downloadOk : String → String → Bool)
    (repo_root : String) (data : Json) : List ExtAction × Option PyErr :=
  match data with
  | .obj flds =>
    match jsonLookup flds "external_contrib_files" with
    | none => ([], none)
    | some v =>
      if v.truthy then
        match v with
        | .arr es => resolveAssets skipDownload downloadOk repo_root es
        | _ => ([], some .typeError)
      else ([], none)
  | _ => ([], some .attributeError)

/-- `pathlib.PurePath.relative_to`: succeeds when `p` is under `base`,
raising `ValueError` otherwise (the `p = base` case is not needed by the
script and outside the modelled scope). -/
def pyRelativeTo (p base : String) : Except PyErr String :=
  if pyStartsWith p (base ++ "/") then .ok (pyDrop p (base.length + 1))
  else .error .valueError

/-- Modelled from the spec: the `Model` class is imported from `model.py`,
which is absent from `src/`.  Per §3 and §4.4 of the spec, `Model(...).as_json`
is a NormalizedMetadataRecord: package identity (the source-repository URL)
plus a relative-path reference to the raw-config sidecar; it is a pure
function of its inputs, does not mutate the raw config, and references the
sidecar by relative path only.  Its further field-mapping rules are outside
the spec's scope. -/
def Model_as_json (_rawConfig : Json) (sidecarRel : String)
    (sourceRepoUrl : String) : Json :=
  Json.obj [("github", Json.str sourceRepoUrl),
            ("modelhub_metadata", Json.str sidecarRel)]

/-- The result of one `clone_repo` invocation: the external invocations it
performed, the files it wrote (path, contents), and the exception it raised
(`none` = success). -/
structure SyncResult where
  actions : List ExtAction
  writes : List (String × String)
  outcome : Option PyErr
deriving DecidableEq, Repr

/-- The part of `clone_repo` after the clone step: load and parse
`<repo_root>/init/init.json`, resolve external assets, load and parse
`<repos_dir>/<name>/contrib_src/model/config.json`, then write
`model.json` (the serialized `Model(config, relative sidecar path,
github_repo).as_json`) and `modelhub.json` (the re-serialized config) under
`<json_dir>/<name>`. -/
def afterClone (environ : String → Option String)
    (downloadOk : String → String → Bool) (fs : String → Option String)
    (repos_dir json_dir : String) (github_repo name : String) : SyncResult :=
  let repo_root := pyJoin repos_dir name
  match fs (pyJoin repo_root "init/init.json") with
  | none => ⟨[], [], some (.fileNotFound (pyJoin repo_root "init/init.json"))⟩
  | some initText =>
    match pyLoads initText with
    | none => ⟨[], [], some .jsonDecodeError⟩
    | some data =>
      match resolveContrib (envTruthy environ "MHTORRENT_SKIP_DOWNLOAD")
          downloadOk repo_root data with
      | (assetActs, some e) => ⟨assetActs, [], some e⟩
      | (assetActs, none) =>
        match fs (pyJoin (pyJoin repos_dir name) "contrib_src/model/config.json") with
        | none =>
          ⟨assetActs, [],
           some (.fileNotFound (pyJoin (pyJoin repos_dir name) "contrib_src/model/config.json"))⟩
        | some cfgText =>
          match pyLoads cfgText with
          | none => ⟨assetActs, [], some .jsonDecodeError⟩
          | some config =>
            let model_metadata_dir := pyJoin json_dir name
            let general_model_metadata_path := pyJoin model_metadata_dir "model.json"
            let mh_metadata_path := pyJoin model_metadata_dir "modelhub.json"
            match pyRelativeTo mh_metadata_path model_metadata_dir with
            | .error e => ⟨assetActs, [], some e⟩
            | .ok rel =>
              let model := Model_as_json config rel github_repo
              ⟨assetActs,
               [(general_model_metadata_path, pyDumps model),
                (mh_metadata_path, pyDumps config)],
               none⟩

/-- `clone_repo(model_meta)`, the Package Synchronizer body (before the
`handle_errors` wrapper): read `model_meta["github"]` and
`model_meta["name"]`, clone unless skipping, then `afterClone`. -/
def clone_repo (environ : String → Option String)
    (cloneOk downloadOk : String → String → Bool) (fs : String → Option String)
    (repos_dir json_dir : String) (model_meta : Json) : SyncResult :=
  match jsonGetStr model_meta "github" with
  | .error e => ⟨[], [], some e⟩
  | .ok github_repo =>
    match jsonGetStr model_meta "name" with
    | .error e => ⟨[], [], some e⟩
    | .ok name =>
      match cloneStep (envTruthy environ "MHTORRENT_SKIP_CLONE") cloneOk github_repo name with
      | (cloneActs, some e) => ⟨cloneActs, [], some e⟩
      | (cloneActs, none) =>
        let r := afterClone environ downloadOk fs repos_dir json_dir github_repo name
        ⟨cloneActs ++ r.actions, r.writes, r.outcome⟩

/-- The outcome of one package after the error boundary: success with the
files written, or a recorded failure. -/
inductive PackageOutcome where
  | success : List (String × String) → PackageOutcome
  | failure : PyErr → PackageOutcome
deriving DecidableEq, Repr

/-- Modelled from the spec: the `handle_errors` decorator is imported from
`util.py`, which is absent from `src/`.  Per §4.2 and §7 of the spec it
catches any exception raised by the wrapped function at the Package
Synchronizer boundary, logs it with the offending package's context, and
converts it into a per-package failure outcome instead of propagating it. -/
def handle_errors (r : SyncResult) : PackageOutcome :=
  match r.outcome with
  | none => .success r.writes
  | some e => .failure e

/-- One `handle_errors`-wrapped `clone_repo` task per package descriptor. -/
def syncAll (environ : String → Option String)
    (cloneOk downloadOk : String → String → Bool) (fs : String → Option String)
    (repos_dir json_dir : String) (metas : List Json) : List PackageOutcome :=
  metas.map (fun m => handle_errors (clone_repo environ cloneOk downloadOk fs repos_dir json_dir m))

/-- Number of failed packages among the per-package outcomes. -/
def failureCount (outs : List PackageOutcome) : Nat :=
  outs.countP (fun o => match o with | .failure _ => true | _ => false)

/-- Python iteration `for model_meta in models` over a JSON-derived value:
lists yield their elements, dicts their keys, strings their characters;
anything else raises `TypeError`. -/
def jsonIterElems : Json → Except PyErr (List Json)
  | .arr xs => .ok xs
  | .obj flds => .ok (flds.map (fun p => Json.str p.1))
  | .str s => .ok (s.data.map (fun c => Json.str (String.mk [c])))
  | _ => .error .typeError

/-- The observable result of one `create_model_repos()` run: the fatal
exception if one escaped (aborting the run), the index bytes persisted by a
live fetch, the tasks submitted to the thread pool in order, and the task
outcomes awaited before returning.  The source submits every task with
`exc.submit(clone_repo, model_meta)` and returns without retaining the
futures, calling `result()`, or shutting the executor down, so it awaits no
outcome before returning: `awaited` is always `[]`. -/
structure OrchRun where
  fatal : Option PyErr
  indexWrite : Option (String × String)
  submitted : List Json
  awaited : List PackageOutcome

/-- `create_model_repos()`: obtain the model index (from the local snapshot
`<json_dir>/models.json` when `MHTORRENT_USE_LOCAL_MODEL_INDEX` is truthy,
else via `get_model_index()`, which persists the response body to
`<json_dir>/models.json` before parsing it), then submit one `clone_repo`
task per entry.  `netBody` is the network oracle: `none` models a failed
`requests.get`.  Exceptions escape uncaught (`fatal`).  The `chdir` calls
mutate process state only and are not modelled. -/
def create_model_repos (environ : String → Option String)
    (fs : String → Option String) (netBody : Option String)
    (json_dir : String) : OrchRun :=
  let models_file := pyJoin json_dir "models.json"
  if envTruthy environ "MHTORRENT_USE_LOCAL_MODEL_INDEX" then
    match fs models_file with
    | none => ⟨some (.fileNotFound models_file), none, [], []⟩
    | some t =>
      match pyLoads t with
      | none => ⟨some .jsonDecodeError, none, [], []⟩
      | some j =>
        match jsonIterElems j with
        | .error e => ⟨some e, none, [], []⟩
        | .ok ms => ⟨none, none, ms, []⟩
  else
    match netBody with
    | none => ⟨some .networkError, none, [], []⟩
    | some body =>
      let iw := some (models_file, body)
      match pyLoads body with
      | none => ⟨some .jsonDecodeError, iw, [], []⟩
      | some j =>
        match jsonIterElems j with
        | .error e => ⟨some e, iw, [], []⟩
        | .ok ms => ⟨none, iw, ms, []⟩

/-- An asset entry the resolver acts on: a string `src_url` that passes the
script's `startswith("http")` check. -/
def entryActionable (e : Json) : Bool :=
  match jsonGetStr e "src_url" with
  | .ok s => pyStartsWith s "http"
  | .error _ => false

/-- An asset entry with string `src_url` and `dest_file_path` fields. -/
def entryWellFormed (e : Json) : Bool :=
  match jsonGetStr e "src_url", jsonGetStr e "dest_file_path" with
  | .ok _, .ok _ => true
  | _, _ => false

/-- Fixture: an environment with no `MHTORRENT_*` variable set. -/
def envNone : String → Option String := fun _ => none

/-- Fixture: only `MHTORRENT_USE_LOCAL_MODEL_INDEX` set. -/
def envLocalIndex : String → Option String :=
  fun k => if k = "MHTORRENT_USE_LOCAL_MODEL_INDEX" then some "1" else none

/-- Fixture: only `MHTORRENT_SKIP_DOWNLOAD` set. -/
def envSkipDownload : String → Option String :=
  fun k => if k = "MHTORRENT_SKIP_DOWNLOAD" then some "1" else none

/-- Fixture: an external-collaborator oracle that always succeeds. -/
def alwaysOk : String → String → Bool := fun _ _ => true

/-- Fixture: an empty filesystem. -/
def emptyFs : String → Option String := fun _ => none

/-- Fixture: the descriptor of package `m1`. -/
def metaM1 : Json :=
  Json.obj [("github", Json.str "https://x/m1.git"), ("name", Json.str "m1")]

/-- Fixture: the descriptor of package `m2`. -/
def metaM2 : Json :=
  Json.obj [("github", Json.str "https://x/m2.git"), ("name", Json.str "m2")]

/-- Fixture: two cloned repositories, `m1` with the spec's end-to-end
scenario data (`init.json` = `{}`, `config.json` = `{"foo":"bar"}`) and `m2`
with a well-formed `init.json` but a malformed `config.json`. -/
def fsTwoRepos : String → Option String := fun p =>
  if p = "../repos/m1/init/init.json" then some "\x7b\x7d"
  else if p = "../repos/m1/contrib_src/model/config.json" then some "\x7b\"foo\":\"bar\"\x7d"
  else if p = "../repos/m2/init/init.json" then some "\x7b\x7d"
  else if p = "../repos/m2/contrib_src/model/config.json" then some "oops"
  else none

theorem isPrefixOf_append_self (l r : List Char) : l.isPrefixOf (l ++ r) = true := by
  rw [ List.isPrefixOf_iff_prefix]
  exact List.prefix_append l r

theorem pyStartsWith_append_self (a b : String) : pyStartsWith (a ++ b) a = true := by
  rw [pyStartsWith, String.data_append]
  exact isPrefixOf_append_self a.data b.data

theorem pyRelativeTo_pyJoin (base rel : String) (h : pyStartsWith rel "/" = false) :
    pyRelativeTo (pyJoin base rel) base = Except.ok rel := by
  have hjoin : pyJoin base rel = (base ++ "/") ++ rel := by
    rw [pyJoin, if_neg (by simp [h]), String.append_assoc]
  rw [hjoin, pyRelativeTo, if_pos (by simpa using pyStartsWith_append_self (base ++ "/") rel)]
  congr 1
  rw [pyDrop, String.data_append]
  have hlen : base.length + 1 = ((base ++ "/").data).length := by
    show base.length + 1 = (base ++ "/").length
    rw [String.length_append]
    rfl
  rw [hlen, List.drop_left]

theorem countP_eq_one_of_unique {α : Type} (p : α → Bool) :
    ∀ (l : List α) (i : Nat) (hi : i < l.length),
      p (l.get ⟨i, hi⟩) = true →
      (∀ j (hj : j < l.length), j ≠ i → p (l.get ⟨j, hj⟩) = false) →
      l.countP p = 1
  | [], i, hi, _, _ => absurd hi (by simp)
  | a :: l, 0, _, hp, hothers => by
    have hzero : l.countP p = 0 := by
      rw [List.countP_eq_zero]
      intro x hx
      obtain ⟨⟨j, hj⟩, rfl⟩ := List.mem_iff_get.mp hx
      have := hothers (j + 1) (by simpa using Nat.succ_lt_succ hj) (Nat.succ_ne_zero j)
      simpa using this
    have hpa : p a = true := hp
    rw [List.countP_cons, hzero, if_pos hpa]
  | a :: l, k + 1, hi, hp, hothers => by
    have ha : p a = false := hothers 0 (Nat.succ_pos _) (by omega)
    have hrec : l.countP p = 1 :=
      countP_eq_one_of_unique p l k (Nat.lt_of_succ_lt_succ hi) hp
        (fun j hj hne => hothers (j + 1) (Nat.succ_lt_succ hj) (by omega))
    rw [List.countP_cons, hrec, if_neg (by simp [ha])]

/-- C2, counterexample: the claim that every entry whose `src_url` does not
start with `"http://"` or `"https://"` is skipped is false for the code:
`"httpfoo://x"` starts with neither scheme marker, yet the resolver invokes
the asset fetcher on it (the script only checks the prefix `"http"`). -/
theorem spec_c2_counterexample :
    pyStartsWith "httpfoo://x" "http://" = false ∧
    pyStartsWith "httpfoo://x" "https://" = false ∧
    (resolveAssets false alwaysOk "r"
      [Json.obj [("src_url", Json.str "httpfoo://x"),
                 ("dest_file_path", Json.str "a")]]).1 =
      [ExtAction.downloadCall "httpfoo://x" "r/a"] :=
  ⟨by decide, by decide, by rfl⟩

/-- C2 (amended): an `ExternalAssetRef` entry is skipped — without invoking
the fetcher and without failing the package — exactly when its `src_url`
does not start with the prefix `"http"`; the script's check is
`src.startswith("http")`, not the full scheme markers `"http://"` /
`"https://"`, so a non-URL string that happens to begin with `"http"` is
not skipped. -/
theorem spec_c2_skip_non_http_entries
    (skipDownload : Bool) (downloadOk : String → String → Bool)
    (repo_root : String) (e : Json) (rest : List Json) (s : String)
    (hs : jsonGetStr e "src_url" = .ok s)
    (hhttp : pyStartsWith s "http" = false) :
    resolveAssets skipDownload downloadOk repo_root (e :: rest) =
      resolveAssets skipDownload downloadOk repo_root rest := by
  simp [resolveAssets, hs, hhttp]

/-- Witness for C2: the spec's own scenario, an entry whose `src_url` is the
comment `"TODO fill in"`, is skipped. -/
theorem spec_c2_skip_non_http_entries_witness :
    resolveAssets false alwaysOk "r"
      [Json.obj [("src_url", Json.str "TODO fill in")]] =
      resolveAssets false alwaysOk "r" [] :=
  spec_c2_skip_non_http_entries false alwaysOk "r"
    (Json.obj [("src_url", Json.str "TODO fill in")]) [] "TODO fill in"
    (by rfl) (by decide)

/-- C3, counterexample: for `dest_file_path = "//contrib_src/x"` the resolver
strips only one separator, leaving `"/contrib_src/x"` — which `pathlib`'s
join treats as absolute, so the destination is NOT interpreted relative to
the repository root (it escapes `/repos/m1`); the claim that the resulting
path is never absolute outside the root is false. -/
theorem spec_c3_counterexample :
    (resolveAssets false alwaysOk "/repos/m1"
      [Json.obj [("src_url", Json.str "http://h/f"),
                 ("dest_file_path", Json.str "//contrib_src/x")]]).1 =
      [ExtAction.downloadCall "http://h/f" "/contrib_src/x"] ∧
    pyStartsWith "/contrib_src/x" "/repos/m1" = false ∧
    pyStartsWith "/contrib_src/x" "/" = true :=
  ⟨by rfl, by decide, by decide⟩

/-- C3 (amended): for a `dest_file_path` beginning with `/`, the resolver
strips exactly one leading separator; when the remainder does not itself
begin with `/` the real path is `repo_root ++ "/" ++ remainder`, i.e.
relative to the repository root — but when the original value began with two
or more separators the remainder is still absolute and `pathlib`'s join
discards the repository root entirely. -/
theorem spec_c3_dest_path_normalization (root d : String)
    (h : pyStartsWith d "/" = true) :
    destNormalize d = pyDrop d 1 ∧
    (pyStartsWith (pyDrop d 1) "/" = false →
      pyJoin root (destNormalize d) = root ++ "/" ++ pyDrop d 1) ∧
    (pyStartsWith (pyDrop d 1) "/" = true →
      pyJoin root (destNormalize d) = pyDrop d 1) := by
  refine ⟨by simp [destNormalize, h], ?_, ?_⟩ <;>
    intro h2 <;> simp [destNormalize, pyJoin, h, h2]

/-- Witness for C3 (amended): the spec's example `/contrib_src/x` maps to
`<root>/contrib_src/x`. -/
theorem spec_c3_dest_path_normalization_witness :
    destNormalize "/contrib_src/x" = pyDrop "/contrib_src/x" 1 ∧
    pyJoin "/repos/m1" (destNormalize "/contrib_src/x") =
      "/repos/m1" ++ "/" ++ pyDrop "/contrib_src/x" 1 :=
  ⟨(spec_c3_dest_path_normalization "/repos/m1" "/contrib_src/x" (by decide)).1,
   (spec_c3_dest_path_normalization "/repos/m1" "/contrib_src/x" (by decide)).2.1
     (by decide)⟩

/-- C10: when `external_contrib_files` is absent, or present with any falsy
value (empty list, `null`, `false`, `""`, `0`, empty object), the asset
resolution step is a no-op identical to the key-absent case: no fetcher
invocation, no error, and the package proceeds to the config-loading step. -/
theorem spec_c10_empty_or_falsy_asset_list_noop
    (skipDownload : Bool) (downloadOk : String → String → Bool)
    (repo_root : String) (flds : List (String × Json))
    (h : ∀ v, jsonLookup flds "external_contrib_files" = some v →
      v.truthy = false) :
    resolveContrib skipDownload downloadOk repo_root (Json.obj flds) =
      ([], none) := by
  unfold resolveContrib
  cases hv : jsonLookup flds "external_contrib_files" with
  | none => simp [hv]
  | some v => simp [hv, h v hv]

/-- Witness for C10: a descriptor whose `external_contrib_files` is the empty
list resolves as a no-op. -/
theorem spec_c10_empty_or_falsy_asset_list_noop_witness :
    resolveContrib false alwaysOk "r"
      (Json.obj [("external_contrib_files", Json.arr [])]) = ([], none) :=
  spec_c10_empty_or_falsy_asset_list_noop false alwaysOk "r"
    [("external_contrib_files", Json.arr [])]
    (fun v hv => by
      have hsome : some (Json.arr []) = some v := hv
      cases hsome
      rfl)

/-- C9: each toggle read via `environ.get` defaults to performing the action
when unset (an unset variable is falsy); with `MHTORRENT_SKIP_CLONE` unset
the clone subprocess is invoked; with `MHTORRENT_SKIP_DOWNLOAD` truthy no
download subprocess is ever invoked for any entry list; with it unset (and
the fetcher succeeding) every well-formed actionable entry triggers exactly
one fetch and the package does not fail. -/
theorem spec_c9_toggle_defaults_and_skip_download :
    (∀ (environ : String → Option String) (k : String),
      environ k = none → envTruthy environ k = false) ∧
    (∀ (cloneOk : String → String → Bool) (g n : String),
      (cloneStep false cloneOk g n).1 = [ExtAction.cloneCall g n]) ∧
    (∀ (downloadOk : String → String → Bool) (root : String) (es : List Json),
      (resolveAssets true downloadOk root es).1 = []) ∧
    (∀ (downloadOk : String → String → Bool) (root : String) (es : List Json),
      (∀ u p, downloadOk u p = true) →
      (∀ e ∈ es, entryWellFormed e = true) →
      (resolveAssets false downloadOk root es).1.length =
        es.countP entryActionable ∧
      (resolveAssets false downloadOk root es).2 = none) := by
  refine ⟨?_, ?_, ?_, ?_⟩
  · intro environ k h
    simp [envTruthy, h]
  · intro cloneOk g n
    by_cases h : cloneOk g n = true <;> simp [cloneStep, h]
  · intro downloadOk root es
    induction es with
    | nil => rfl
    | cons e rest ih =>
      cases hs : jsonGetStr e "src_url" with
      | error err => simp [resolveAssets, hs]
      | ok s =>
        by_cases hh : pyStartsWith s "http" = true
        · cases hd : jsonGetStr e "dest_file_path" with
          | error err => simp [resolveAssets, hs, hh, hd]
          | ok d => simp [resolveAssets, hs, hh, hd, ih]
        · simp at hh
          simp [resolveAssets, hs, hh, ih]
  · intro downloadOk root es hdl hwf
    induction es with
    | nil => simp [resolveAssets]
    | cons e rest ih =>
      have hwfe : entryWellFormed e = true := hwf e (List.mem_cons_self e rest)
      have hwfr : ∀ x ∈ rest, entryWellFormed x = true :=
        fun x hx => hwf x (List.mem_cons_of_mem e hx)
      obtain ⟨ihlen, ihout⟩ := ih hwfr
      cases hs : jsonGetStr e "src_url" with
      | error err => simp [entryWellFormed, hs] at hwfe
      | ok s =>
        cases hd : jsonGetStr e "dest_file_path" with
        | error err => simp [entryWellFormed, hs, hd] at hwfe
        | ok d =>
          by_cases hh : pyStartsWith s "http" = true
          · have hok := hdl s (pyJoin root (destNormalize d))
            constructor
            · simp [resolveAssets, hs, hh, hd, hok, List.countP_cons,
                entryActionable, ihlen]
            · simp [resolveAssets, hs, hh, hd, hok, ihout]
          · simp at hh
            constructor
            · simp [resolveAssets, hs, hh, List.countP_cons,
                entryActionable, ihlen]
            · simp [resolveAssets, hs, hh, ihout]

/-- Witness for C9: an unset `MHTORRENT_SKIP_DOWNLOAD` is falsy, and with it
unset a single well-formed actionable entry triggers exactly one fetch. -/
theorem spec_c9_toggle_defaults_and_skip_download_witness :
    envTruthy envNone "MHTORRENT_SKIP_DOWNLOAD" = false ∧
    (resolveAssets false alwaysOk "r"
      [Json.obj [("src_url", Json.str "http://h/f"),
                 ("dest_file_path", Json.str "a")]]).1.length =
      [Json.obj [("src_url", Json.str "http://h/f"),
                 ("dest_file_path", Json.str "a")]].countP entryActionable :=
  ⟨spec_c9_toggle_defaults_and_skip_download.1 envNone "MHTORRENT_SKIP_DOWNLOAD" rfl,
   (spec_c9_toggle_defaults_and_skip_download.2.2.2 alwaysOk "r"
      [Json.obj [("src_url", Json.str "http://h/f"),
                 ("dest_file_path", Json.str "a")]]
      (fun _ _ => rfl) (by decide)).1⟩

/-- C7: with `MHTORRENT_USE_LOCAL_MODEL_INDEX` truthy and no snapshot at
`<json_dir>/models.json`, the uncaught `FileNotFoundError` aborts the whole
run before anything happens: no index write, no task submitted. -/
theorem spec_c7_missing_cache_aborts_run
    (environ : String → Option String) (fs : String → Option String)
    (netBody : Option String) (json_dir : String)
    (huse : envTruthy environ "MHTORRENT_USE_LOCAL_MODEL_INDEX" = true)
    (hmiss : fs (pyJoin json_dir "models.json") = none) :
    create_model_repos environ fs netBody json_dir =
      ⟨some (.fileNotFound (pyJoin json_dir "models.json")), none, [], []⟩ := by
  simp [create_model_repos, huse, hmiss]

/-- Witness for C7: cached run on an empty filesystem aborts with
`FileNotFoundError` and submits nothing. -/
theorem spec_c7_missing_cache_aborts_run_witness :
    create_model_repos envLocalIndex emptyFs none "../json" =
      ⟨some (.fileNotFound (pyJoin "../json" "models.json")), none, [], []⟩ :=
  spec_c7_missing_cache_aborts_run envLocalIndex emptyFs none "../json"
    (by rfl) (by rfl)

/-- C8: a live fetch persists the raw response bytes to exactly
`<json_dir>/models.json` — the path a cached run reads — and a cached run on
the post-live filesystem parses the same index document: it submits the same
task list and fails fatally in exactly the same cases. -/
theorem spec_c8_live_then_cached_round_trip
    (e1 e2 : String → Option String) (fs : String → Option String)
    (body json_dir : String)
    (h1 : envTruthy e1 "MHTORRENT_USE_LOCAL_MODEL_INDEX" = false)
    (h2 : envTruthy e2 "MHTORRENT_USE_LOCAL_MODEL_INDEX" = true) :
    (create_model_repos e1 fs (some body) json_dir).indexWrite =
      some (pyJoin json_dir "models.json", body) ∧
    (create_model_repos e2
        (fun p => if p = pyJoin json_dir "models.json" then some body else fs p)
        none json_dir).submitted =
      (create_model_repos e1 fs (some body) json_dir).submitted ∧
    (create_model_repos e2
        (fun p => if p = pyJoin json_dir "models.json" then some body else fs p)
        none json_dir).fatal =
      (create_model_repos e1 fs (some body) json_dir).fatal := by
  unfold create_model_repos
  simp only [h1, h2, Bool.false_eq_true, if_false, if_true, if_pos rfl]
  cases hl : pyLoads body with
  | none => simp
  | some j =>
    cases hi : jsonIterElems j with
    | error e => simp [hi]
    | ok ms => simp [hi]

/-- Witness for C8: live fetch of a one-package index persists the body and
a subsequent cached run submits the same single task. -/
theorem spec_c8_live_then_cached_round_trip_witness :
    (create_model_repos envNone emptyFs
        (some "[\x7b\"name\": \"m1\"\x7d]") "../json").indexWrite =
      some (pyJoin "../json" "models.json", "[\x7b\"name\": \"m1\"\x7d]") ∧
    (create_model_repos envLocalIndex
        (fun p => if p = pyJoin "../json" "models.json"
          then some "[\x7b\"name\": \"m1\"\x7d]" else emptyFs p)
        none "../json").submitted =
      (create_model_repos envNone emptyFs
        (some "[\x7b\"name\": \"m1\"\x7d]") "../json").submitted :=
  ⟨(spec_c8_live_then_cached_round_trip envNone envLocalIndex emptyFs
      "[\x7b\"name\": \"m1\"\x7d]" "../json" rfl rfl).1,
   (spec_c8_live_then_cached_round_trip envNone envLocalIndex emptyFs
      "[\x7b\"name\": \"m1\"\x7d]" "../json" rfl rfl).2.1⟩

/-- C4: the source violates this claim — `create_model_repos` submits every
task to the thread pool and returns at once, never retaining the futures,
awaiting any task, or aggregating outcomes (there is no failure count).  At
a one-package index the run returns with the task merely submitted and zero
outcomes awaited. -/
theorem spec_c4_orchestrator_returns_without_awaiting :
    (create_model_repos envNone emptyFs
        (some "[\x7b\"name\": \"m1\"\x7d]") "../json").submitted =
      [Json.obj [("name", Json.str "m1")]] ∧
    (create_model_repos envNone emptyFs
        (some "[\x7b\"name\": \"m1\"\x7d]") "../json").awaited = [] :=
  ⟨by rfl, by rfl⟩

/-- C6, counterexample: the claim that an empty `github` URL fails fast
"without attempting a repository clone" is false for the code: with
`github = ""` the script invokes `git clone --depth=1 "" m` (the clone IS
attempted; its failure then becomes the per-package error). -/
theorem spec_c6_counterexample :
    (clone_repo envNone (fun _ _ => false) alwaysOk emptyFs "../repos" "../json"
      (Json.obj [("github", Json.str ""), ("name", Json.str "m")])).actions =
      [ExtAction.cloneCall "" "m"] ∧
    (clone_repo envNone (fun _ _ => false) alwaysOk emptyFs "../repos" "../json"
      (Json.obj [("github", Json.str ""), ("name", Json.str "m")])).outcome =
      some (.calledProcessError ["git", "clone", "--depth=1", "", "m"]) :=
  ⟨by rfl, by rfl⟩

/-- C6 (amended): a descriptor with no `github` key fails fast as a
per-package error before any external invocation or write; but an empty
`github` URL does not prevent the clone attempt — unless cloning is skipped,
the clone subprocess is invoked with the empty URL as its first recorded
action. -/
theorem spec_c6_missing_github_fails_fast
    (environ : String → Option String)
    (cloneOk downloadOk : String → String → Bool)
    (fs : String → Option String) (repos_dir json_dir : String) :
    (∀ meta e, jsonGetStr meta "github" = .error e →
      clone_repo environ cloneOk downloadOk fs repos_dir json_dir meta =
        ⟨[], [], some e⟩) ∧
    (∀ meta n, jsonGetStr meta "github" = .ok "" →
      jsonGetStr meta "name" = .ok n →
      envTruthy environ "MHTORRENT_SKIP_CLONE" = false →
      (clone_repo environ cloneOk downloadOk fs repos_dir json_dir
          meta).actions.head? = some (ExtAction.cloneCall "" n)) := by
  constructor
  · intro meta e he
    simp [clone_repo, he]
  · intro meta n hg hn hskip
    by_cases hok : cloneOk "" n = true <;>
      simp [clone_repo, hg, hn, hskip, cloneStep, hok]

/-- Witness for C6 (amended): a descriptor lacking `github` fails with
`KeyError "github"` and performs no action; one with `github = ""` has the
empty-URL clone as its first action. -/
theorem spec_c6_missing_github_fails_fast_witness :
    clone_repo envNone alwaysOk alwaysOk emptyFs "../repos" "../json"
      (Json.obj [("name", Json.str "m")]) =
      ⟨[], [], some (.keyError "github")⟩ ∧
    (clone_repo envNone alwaysOk alwaysOk emptyFs "../repos" "../json"
      (Json.obj [("github", Json.str ""), ("name", Json.str "m")])).actions.head? =
      some (ExtAction.cloneCall "" "m") :=
  ⟨(spec_c6_missing_github_fails_fast envNone alwaysOk alwaysOk emptyFs
      "../repos" "../json").1 (Json.obj [("name", Json.str "m")])
      (.keyError "github") (by rfl),
   (spec_c6_missing_github_fails_fast envNone alwaysOk alwaysOk emptyFs
      "../repos" "../json").2 (Json.obj [("github", Json.str ""),
        ("name", Json.str "m")]) "m" (by rfl) (by rfl) (by rfl)⟩

theorem afterClone_badConfig
    (environ : String → Option String) (downloadOk : String → String → Bool)
    (fs : String → Option String) (repos_dir json_dir g n it ct : String)
    (dataJ : Json) (aas : List ExtAction)
    (hinitf : fs (pyJoin (pyJoin repos_dir n) "init/init.json") = some it)
    (hinitp : pyLoads it = some dataJ)
    (hassets : resolveContrib (envTruthy environ "MHTORRENT_SKIP_DOWNLOAD")
      downloadOk (pyJoin repos_dir n) dataJ = (aas, none))
    (hcfgf : fs (pyJoin (pyJoin repos_dir n) "contrib_src/model/config.json") =
      some ct)
    (hcfgp : pyLoads ct = none) :
    afterClone environ downloadOk fs repos_dir json_dir g n =
      ⟨aas, [], some .jsonDecodeError⟩ := by
  simp only [afterClone, hinitf, hinitp, hassets, hcfgf, hcfgp]

theorem afterClone_success
    (environ : String → Option String) (downloadOk : String → String → Bool)
    (fs : String → Option String) (repos_dir json_dir g n it ct : String)
    (dataJ cfg : Json) (aas : List ExtAction)
    (hinitf : fs (pyJoin (pyJoin repos_dir n) "init/init.json") = some it)
    (hinitp : pyLoads it = some dataJ)
    (hassets : resolveContrib (envTruthy environ "MHTORRENT_SKIP_DOWNLOAD")
      downloadOk (pyJoin repos_dir n) dataJ = (aas, none))
    (hcfgf : fs (pyJoin (pyJoin repos_dir n) "contrib_src/model/config.json") =
      some ct)
    (hcfgp : pyLoads ct = some cfg) :
    afterClone environ downloadOk fs repos_dir json_dir g n =
      ⟨aas,
       [(pyJoin (pyJoin json_dir n) "model.json",
         pyDumps (Model_as_json cfg "modelhub.json" g)),
        (pyJoin (pyJoin json_dir n) "modelhub.json", pyDumps cfg)],
       none⟩ := by
  simp only [afterClone, hinitf, hinitp, hassets, hcfgf, hcfgp,
    pyRelativeTo_pyJoin (pyJoin json_dir n) "modelhub.json" (by decide)]

/-- C5, counterexample: the claim of a byte-identical passthrough is false
for the code: the source `config.json` document is `{"foo":"bar"}` (no
space), but the script writes `json.dumps(json.loads(text))`, producing
`{"foo": "bar"}` — value-equal, not byte-identical. -/
theorem spec_c5_counterexample :
    fsTwoRepos "../repos/m1/contrib_src/model/config.json" =
      some "\x7b\"foo\":\"bar\"\x7d" ∧
    (clone_repo envNone alwaysOk alwaysOk fsTwoRepos "../repos" "../json"
      metaM1).writes =
      [("../json/m1/model.json",
        "\x7b\"github\": \"https://x/m1.git\", \"modelhub_metadata\": \"modelhub.json\"\x7d"),
       ("../json/m1/modelhub.json", "\x7b\"foo\": \"bar\"\x7d")] ∧
    "\x7b\"foo\": \"bar\"\x7d" ≠ "\x7b\"foo\":\"bar\"\x7d" :=
  ⟨by rfl, by rfl, by decide⟩

/-- C5 (amended): for every package that completes synchronization,
`<metadata_dir>/modelhub.json` contains `json.dumps` of the parsed
`config.json` — the same JSON value re-serialized with normalized
formatting, not a byte-identical copy of the source document — and
`<metadata_dir>/model.json` serializes the metadata record built with the
sidecar's path relative to the metadata directory, `"modelhub.json"`. -/
theorem spec_c5_output_writes
    (environ : String → Option String)
    (cloneOk downloadOk : String → String → Bool)
    (fs : String → Option String) (repos_dir json_dir : String)
    (meta : Json) (g n it ct : String) (ca aas : List ExtAction)
    (dataJ cfg : Json)
    (hg : jsonGetStr meta "github" = .ok g)
    (hn : jsonGetStr meta "name" = .ok n)
    (hclone : cloneStep (envTruthy environ "MHTORRENT_SKIP_CLONE") cloneOk g n =
      (ca, none))
    (hinitf : fs (pyJoin (pyJoin repos_dir n) "init/init.json") = some it)
    (hinitp : pyLoads it = some dataJ)
    (hassets : resolveContrib (envTruthy environ "MHTORRENT_SKIP_DOWNLOAD")
      downloadOk (pyJoin repos_dir n) dataJ = (aas, none))
    (hcfgf : fs (pyJoin (pyJoin repos_dir n) "contrib_src/model/config.json") =
      some ct)
    (hcfgp : pyLoads ct = some cfg) :
    (clone_repo environ cloneOk downloadOk fs repos_dir json_dir meta).writes =
      [(pyJoin (pyJoin json_dir n) "model.json",
        pyDumps (Model_as_json cfg "modelhub.json" g)),
       (pyJoin (pyJoin json_dir n) "modelhub.json", pyDumps cfg)] ∧
    (clone_repo environ cloneOk downloadOk fs repos_dir json_dir meta).outcome =
      none := by
  simp only [clone_repo, hg, hn, hclone,
    afterClone_success environ downloadOk fs repos_dir json_dir g n it ct
      dataJ cfg aas hinitf hinitp hassets hcfgf hcfgp]
  exact ⟨by trivial, by trivial⟩

/-- Witness for C5 (amended): the spec's end-to-end scenario package `m1`. -/
theorem spec_c5_output_writes_witness :
    (clone_repo envNone alwaysOk alwaysOk fsTwoRepos "../repos" "../json"
      metaM1).writes =
      [(pyJoin (pyJoin "../json" "m1") "model.json",
        pyDumps (Model_as_json (Json.obj [("foo", Json.str "bar")])
          "modelhub.json" "https://x/m1.git")),
       (pyJoin (pyJoin "../json" "m1") "modelhub.json",
        pyDumps (Json.obj [("foo", Json.str "bar")]))] ∧
    (clone_repo envNone alwaysOk alwaysOk fsTwoRepos "../repos" "../json"
      metaM1).outcome = none :=
  spec_c5_output_writes envNone alwaysOk alwaysOk fsTwoRepos "../repos" "../json"
    metaM1 "https://x/m1.git" "m1" "\x7b\x7d" "\x7b\"foo\":\"bar\"\x7d"
    [ExtAction.cloneCall "https://x/m1.git" "m1"] [] (Json.obj [])
    (Json.obj [("foo", Json.str "bar")])
    (by rfl) (by rfl) (by rfl) (by rfl) (by rfl) (by rfl) (by rfl) (by rfl)

/-- C1: every per-package exception is converted by the error boundary into
a per-package outcome, never propagated: the run always yields one outcome
per package; when package `i` reaches the config-loading step and its
`config.json` fails to parse while every sibling package succeeds, exactly
one failure is counted and every sibling still produces its own success
outcome with its own writes. -/
theorem spec_c1_per_package_failure_isolation
    (environ : String → Option String)
    (cloneOk downloadOk : String → String → Bool)
    (fs : String → Option String) (repos_dir json_dir : String)
    (metas : List Json) (i : Nat) (hi : i < metas.length)
    (g n it ct : String) (ca aas : List ExtAction) (dataJ : Json)
    (hg : jsonGetStr (metas.get ⟨i, hi⟩) "github" = .ok g)
    (hn : jsonGetStr (metas.get ⟨i, hi⟩) "name" = .ok n)
    (hclone : cloneStep (envTruthy environ "MHTORRENT_SKIP_CLONE") cloneOk g n =
      (ca, none))
    (hinitf : fs (pyJoin (pyJoin repos_dir n) "init/init.json") = some it)
    (hinitp : pyLoads it = some dataJ)
    (hassets : resolveContrib (envTruthy environ "MHTORRENT_SKIP_DOWNLOAD")
      downloadOk (pyJoin repos_dir n) dataJ = (aas, none))
    (hcfgf : fs (pyJoin (pyJoin repos_dir n) "contrib_src/model/config.json") =
      some ct)
    (hcfgp : pyLoads ct = none)
    (hothers : ∀ j (hj : j < metas.length), j ≠ i →
      (clone_repo environ cloneOk downloadOk fs repos_dir json_dir
        (metas.get ⟨j, hj⟩)).outcome = none) :
    (syncAll environ cloneOk downloadOk fs repos_dir json_dir metas).length =
      metas.length ∧
    failureCount (syncAll environ cloneOk downloadOk fs repos_dir json_dir
      metas) = 1 ∧
    ∀ j (hj : j < metas.length), j ≠ i →
      handle_errors (clone_repo environ cloneOk downloadOk fs repos_dir
          json_dir (metas.get ⟨j, hj⟩)) =
        .success (clone_repo environ cloneOk downloadOk fs repos_dir json_dir
          (metas.get ⟨j, hj⟩)).writes := by
  have hfail : (clone_repo environ cloneOk downloadOk fs repos_dir json_dir
      (metas.get ⟨i, hi⟩)).outcome = some .jsonDecodeError := by
    simp only [clone_repo, hg, hn, hclone,
      afterClone_badConfig environ downloadOk fs repos_dir json_dir g n it ct
        dataJ aas hinitf hinitp hassets hcfgf hcfgp]
  refine ⟨by simp [syncAll], ?_, ?_⟩
  · rw [failureCount, syncAll, List.countP_map]
    refine countP_eq_one_of_unique _ metas i hi ?_ ?_
    · have h := hfail
      rw [List.get_eq_getElem] at h
      simp only [Function.comp_apply]
      simp [handle_errors, h]
    · intro j hj hne
      have h := hothers j hj hne
      rw [List.get_eq_getElem] at h
      simp only [Function.comp_apply]
      simp [handle_errors, h]
  · intro j hj hne
    have h := hothers j hj hne
    rw [List.get_eq_getElem] at h
    simp [handle_errors, h]

/-- Witness for C1: two packages where only `m2` has a malformed
`config.json`; exactly one failure is counted. -/
theorem spec_c1_per_package_failure_isolation_witness :
    failureCount (syncAll envNone alwaysOk alwaysOk fsTwoRepos "../repos"
      "../json" [metaM1, metaM2]) = 1 :=
  (spec_c1_per_package_failure_isolation envNone alwaysOk alwaysOk fsTwoRepos
    "../repos" "../json" [metaM1, metaM2] 1 (by decide)
    "https://x/m2.git" "m2" "\x7b\x7d" "oops"
    [ExtAction.cloneCall "https://x/m2.git" "m2"] [] (Json.obj [])
    (by rfl) (by rfl) (by rfl) (by rfl) (by rfl) (by rfl) (by rfl) (by rfl)
    (fun j hj hne => by
      cases j with
      | zero => rfl
      | succ k =>
        cases k with
        | zero => exact absurd rfl hne
        | succ m =>
          have hlt : m + 1 + 1 < 2 := by simpa using hj
          exact absurd hlt (by omega))).2.1
